import Mathlib

/-!
Verification of the ABCL_sms_parsing repository (financial SMS classification
and extraction pipeline).

The repository contains two parallel implementations of the pipeline:
  - src/Message_Parsing/Backend/main_with_api.py  (namespace MainApi below)
  - src/Message_Parsing/Backend/routes.py         (namespace Routes below)

Shallow-embedding conventions:
  - Python str values are Lean String; Python dynamic values are PyVal.
  - Python float is modelled as an exact rational (the numeric strings the
    pipeline feeds to float() are short decimal literals, which convert
    exactly at the level of decimal semantics; binary rounding of doubles is
    not modelled and no claim depends on it).
  - Python dicts are association lists in insertion order, mirroring the
    insertion-ordered dict semantics of Python 3.7+.
  - re.search is modelled by a backtracking matcher over a regex AST that is
    transcribed pattern-by-pattern from the source literals (leftmost match,
    ordered alternation, greedy and lazy quantifiers, IGNORECASE baked into
    the compiled pattern).
  - Exceptions are modelled as Option/Except; the remote model invocation and
    stdlib json.loads are external collaborators, modelled by their decoded
    outcome (an Option PyVal argument).
-/

/-! ## Basic Python string helpers -/

/-- Whitespace for Python str.strip(): space, tab, newline, carriage return,
vertical tab, form feed.  (Python also strips some further Unicode space
characters; none of them occur in this pipeline.) -/
def pyIsSpace (c : Char) : Bool :=
  c == ' ' || c == '\t' || c == '\n' || c == '\r' || c == '\x0b' || c == '\x0c'

/-- Python str.strip(): remove leading and trailing whitespace. -/
def pyStrip (s : String) : String :=
  ⟨((s.data.dropWhile pyIsSpace).reverse.dropWhile pyIsSpace).reverse⟩

/-- Boolean list-level check that the first list starts the second one. -/
def startsList : List Char → List Char → Bool
  | [], _ => true
  | _ :: _, [] => false
  | a :: as, b :: bs => a == b && startsList as bs

/-- Boolean list-level substring containment. -/
def containsSub (needle : List Char) : List Char → Bool
  | [] => startsList needle []
  | h :: t => startsList needle (h :: t) || containsSub needle t

/-- Python `needle in hay` on strings (substring containment). -/
def strContains (hay needle : String) : Bool :=
  containsSub needle.data hay.data

/-- Python str.lower() (ASCII; no non-ASCII cased letters occur here). -/
def strLower (s : String) : String := ⟨s.data.map Char.toLower⟩

/-- Python str.upper() (ASCII). -/
def strUpper (s : String) : String := ⟨s.data.map Char.toUpper⟩

/-- Python str.zfill(2) for the short digit strings used by parse_date. -/
def zfill2 (s : String) : String := if s.length < 2 then "0" ++ s else s

/-- Digits of a numeral string as a natural number (most significant first). -/
def natOfDigits (cs : List Char) : Nat :=
  cs.foldl (fun acc c => 10 * acc + (c.toNat - '0'.toNat)) 0

/-- Left-pad a numeral with zeros to the given width (strftime zero padding). -/
def padNum (width n : Nat) : String :=
  let s := toString n
  if s.length < width then String.mk (List.replicate (width - s.length) '0') ++ s
  else s

/-! ## PyVal: dynamic Python values -/

/-- Dynamic Python value as it appears in the extraction field maps and in
decoded JSON.  Python bool is kept distinct; note that in Python bool is a
subclass of int, which the sanitizer embedding respects. -/
inductive PyVal where
  | none
  | bool (b : Bool)
  | int (n : Int)
  | float (q : ℚ)
  | str (s : String)
  | list (xs : List PyVal)
  | dict (fields : List (String × PyVal))

/-- Field maps: Python dicts from field name to value, in insertion order. -/
abbrev FieldMap := List (String × PyVal)

/-- Dict lookup (first occurrence; the pipeline never builds duplicate keys). -/
def fget (d : FieldMap) (k : String) : Option PyVal :=
  (d.find? (fun p => p.1 == k)).map Prod.snd

/-- Python `k in d` on a dict. -/
def fhas (d : FieldMap) (k : String) : Bool :=
  (d.find? (fun p => p.1 == k)).isSome

/-- Python dict assignment d[k] = v: overwrite in place if the key exists,
otherwise append (insertion order). -/
def fset (d : FieldMap) (k : String) (v : PyVal) : FieldMap :=
  if fhas d k then d.map (fun p => if p.1 == k then (k, v) else p)
  else d ++ [(k, v)]

/-- Python dict.update: assign every pair of the second dict into the first. -/
def dictUpdate (d upd : FieldMap) : FieldMap :=
  upd.foldl (fun acc kv => fset acc kv.1 kv.2) d

/-- Exact decimal rendering of a rational whose denominator divides a power of
ten (every float built by this pipeline has that shape); used to model the
Python repr of such floats.  Rationals of any other shape render with a
marker; no code path reaches them. -/
def floatRepr (q : ℚ) : String :=
  let sign := if q.num < 0 then "-" else ""
  let n := q.num.natAbs
  let d := q.den
  let rec findPow (den : Nat) : Nat → Option Nat
    | 0 => if den = 1 then some 0 else Option.none
    | j + 1 => match findPow den j with
      | some k => some k
      | Option.none => if (10 ^ (j + 1)) % den = 0 then some (j + 1) else Option.none
  match findPow d 30 with
  | some 0 => sign ++ toString n ++ ".0"
  | some k =>
    let m := n * ((10 ^ k) / d)
    let digits := (toString m).data
    let digits := if digits.length ≤ k then List.replicate (k + 1 - digits.length) '0' ++ digits else digits
    let cut := digits.length - k
    sign ++ String.mk (digits.take cut) ++ "." ++ String.mk (digits.drop cut)
  | Option.none => sign ++ toString n ++ "/" ++ toString d

/-- Python str() of a value.  Exact for None, bool, int and str; floats use
floatRepr (exact decimal form); containers are rendered opaquely — the
pipeline never calls str() on a container and no claim depends on it. -/
def pyStr : PyVal → String
  | .none => "None"
  | .bool b => if b then "True" else "False"
  | .int n => toString n
  | .float q => floatRepr q
  | .str s => s
  | .list _ => "<list>"
  | .dict _ => "<dict>"

/-- Python truthiness of a value. -/
def pyTruthy : PyVal → Bool
  | .none => false
  | .bool b => b
  | .int n => n != 0
  | .float q => q != 0
  | .str s => s != ""
  | .list xs => !xs.isEmpty
  | .dict fs => !fs.isEmpty

/-- Whether a value is a Python str. -/
def PyVal.isString : PyVal → Bool
  | .str _ => true
  | _ => false

/-! ## Numeric parsing (Python float()/int() on the strings this code feeds
them: strings of decimal digits with at most one dot, as produced by the
regex captures after clean_numeric_string) -/

/-- Python float(s) for digit/dot strings: digits with an optional single dot
(dot may lead, trail, or sit inside), exact rational result.  Returns Option.none
where Python float() raises ValueError on such strings. -/
def parseFloat? (s : String) : Option ℚ :=
  let cs := s.data
  if cs.isEmpty then Option.none else
  match cs.findIdx? (fun c => c = '.') with
  | Option.none =>
    if cs.all Char.isDigit then some (mkRat (natOfDigits cs) 1) else Option.none
  | some i =>
    let intPart := cs.take i
    let fracPart := cs.drop (i + 1)
    if fracPart.any (fun c => c = '.') then Option.none
    else if intPart.all Char.isDigit && fracPart.all Char.isDigit
            && !(intPart.isEmpty && fracPart.isEmpty) then
      some (mkRat (natOfDigits (intPart ++ fracPart)) (10 ^ fracPart.length))
    else Option.none

/-- Python int(s) for the all-digit strings the sanitizer feeds it. -/
def parseInt? (s : String) : Option ℤ :=
  if s ≠ "" && s.data.all Char.isDigit then some ((natOfDigits s.data : ℤ))
  else Option.none

/-- Python float(string) on an arbitrary string, as the routes sanitizer can
receive one from decoded JSON: optional surrounding whitespace, optional
sign, digits with an optional single dot (which may lead or trail), and an
optional signed exponent.  Exact rational result.  (The inf/nan spellings
and underscore digit grouping, also accepted by Python, cannot arise from
this pipeline and are not modelled.) -/
def pyFloatLit? (s : String) : Option ℚ :=
  let t := (pyStrip s).data
  let signed : Bool × List Char :=
    match t with
    | '-' :: r => (true, r)
    | '+' :: r => (false, r)
    | r => (false, r)
  let neg := signed.1
  let t := signed.2
  let mantExp : List Char × Option (List Char) :=
    match t.findIdx? (fun c => c == 'e' || c == 'E') with
    | some i => (t.take i, some (t.drop (i + 1)))
    | Option.none => (t, Option.none)
  let mant := mantExp.1
  let expVal : Option Int :=
    match mantExp.2 with
    | Option.none => some 0
    | some e =>
      let esigned : Bool × List Char :=
        match e with
        | '-' :: r => (true, r)
        | '+' :: r => (false, r)
        | r => (false, r)
      if !esigned.2.isEmpty && esigned.2.all Char.isDigit then
        some (if esigned.1 then -((natOfDigits esigned.2 : Int))
              else (natOfDigits esigned.2 : Int))
      else Option.none
  match expVal with
  | Option.none => Option.none
  | some ev =>
    let ipfp : List Char × List Char :=
      match mant.findIdx? (fun c => c == '.') with
      | some i => (mant.take i, mant.drop (i + 1))
      | Option.none => (mant, [])
    let ip := ipfp.1
    let fp := ipfp.2
    if ip.all Char.isDigit && fp.all Char.isDigit && !(ip.isEmpty && fp.isEmpty) then
      let m : Int := (natOfDigits (ip ++ fp) : Int)
      let m := if neg then -m else m
      let net : Int := ev - (fp.length : Int)
      if 0 ≤ net then some (mkRat (m * (10 : Int) ^ net.toNat) 1)
      else some (mkRat m ((10 : Nat) ^ (-net).toNat))
    else Option.none

/-- Python str.isdigit() (ASCII digits; the Unicode digit classes never occur
in this pipeline). -/
def pyIsDigitStr (s : String) : Bool :=
  s ≠ "" && s.data.all Char.isDigit

/-- str.replace('.', '', 1): remove the first dot only. -/
def removeFirstDot (s : String) : String :=
  match s.data.findIdx? (fun c => c = '.') with
  | some i => ⟨s.data.take i ++ s.data.drop (i + 1)⟩
  | Option.none => s

/-! ## A small backtracking regex engine

Each pattern of the source is transcribed below as an `RE` term.  The matcher
follows Python re semantics for the constructs those patterns use: leftmost
search, ordered alternation, greedy and lazy bounded repetition with full
backtracking, character classes, capture groups, IGNORECASE (baked into the
compiled pattern).  Every repetition body in the transcribed patterns
consumes at least one character, so the Python empty-match repetition rule
never comes into play.  Fuel bounds the recursion depth; the bound passed by
`research` exceeds the maximal possible depth for these patterns, so it is
never exhausted. -/

/-- One item of a character class. -/
inductive ClassItem where
  | single (c : Char)
  | range (lo hi : Char)
  | digit
  | space
  | word

/-- Membership of a character in one class item. -/
def itemMatch : ClassItem → Char → Bool
  | .single a, c => a == c
  | .range lo hi, c => decide (lo ≤ c) && decide (c ≤ hi)
  | .digit, c => c.isDigit
  | .space, c => c == ' ' || c == '\t' || c == '\n' || c == '\r' || c == '\x0b' || c == '\x0c'
  | .word, c => c.isAlphanum || c == '_'

/-- Class match with IGNORECASE (ci) and negation (neg) flags. -/
def classMatch (ci neg : Bool) (items : List ClassItem) (c : Char) : Bool :=
  let base := fun ch => items.any (fun it => itemMatch it ch)
  let hit := if ci then base c || base c.toLower || base c.toUpper else base c
  if neg then !hit else hit

/-- Regex AST for the patterns appearing in the source. -/
inductive RE where
  | eps
  | lit (c : Char)
  | litCI (c : Char)
  | cls (ci neg : Bool) (items : List ClassItem)
  | cat (a b : RE)
  | alt (a b : RE)
  | grp (idx : Nat) (r : RE)
  | rep (lo : Nat) (hi : Option Nat) (lazy : Bool) (r : RE)

/-- First-of-two for the backtracking matcher. -/
def ofirst (a b : Option (List (Nat × List Char))) : Option (List (Nat × List Char)) :=
  match a with
  | some r => some r
  | Option.none => b

/-- The backtracking matcher in continuation style.  The continuation receives
the remaining input and the group captures collected so far (most recent
first); it returns the final captures on overall success.  Fuel bounds the
frame depth only. -/
def mmatch : Nat → RE → List Char → List (Nat × List Char) →
    (List Char → List (Nat × List Char) → Option (List (Nat × List Char))) →
    Option (List (Nat × List Char))
  | 0, _, _, _, _ => Option.none
  | _ + 1, .eps, s, g, k => k s g
  | _ + 1, .lit c, s, g, k =>
    match s with
    | [] => Option.none
    | a :: t => if a == c then k t g else Option.none
  | _ + 1, .litCI c, s, g, k =>
    match s with
    | [] => Option.none
    | a :: t => if a.toLower == c.toLower then k t g else Option.none
  | _ + 1, .cls ci neg items, s, g, k =>
    match s with
    | [] => Option.none
    | a :: t => if classMatch ci neg items a then k t g else Option.none
  | f + 1, .cat a b, s, g, k =>
    mmatch f a s g (fun s1 g1 => mmatch f b s1 g1 k)
  | f + 1, .alt a b, s, g, k =>
    ofirst (mmatch f a s g k) (mmatch f b s g k)
  | f + 1, .grp i r, s, g, k =>
    mmatch f r s g (fun s1 g1 => k s1 ((i, s.take (s.length - s1.length)) :: g1))
  | f + 1, .rep lo hi lz r, s, g, k =>
    if lo > 0 then
      mmatch f r s g (fun s1 g1 => mmatch f (.rep (lo - 1) (hi.map (· - 1)) lz r) s1 g1 k)
    else
      match hi with
      | some 0 => k s g
      | _ =>
        let one := mmatch f r s g (fun s1 g1 =>
          mmatch f (.rep 0 (hi.map (· - 1)) lz r) s1 g1 k)
        if lz then ofirst (k s g) one else ofirst one (k s g)

/-- Fuel that exceeds any possible frame depth for the transcribed patterns
on the given input. -/
def fuelFor (len : Nat) : Nat := 20 * len + 600

/-- One anchored match attempt at the head of the input. -/
def matchHere (r : RE) (s : List Char) : Option (List (Nat × List Char)) :=
  mmatch (fuelFor s.length) r s [] (fun _ g => some g)

/-- re.search scanning: try each start position left to right. -/
def searchGo (r : RE) : List Char → Option (List (Nat × List Char))
  | [] => matchHere r []
  | c :: t => ofirst (matchHere r (c :: t)) (searchGo r t)

/-- re.search on a string, returning the captures of the leftmost match. -/
def research (r : RE) (s : String) : Option (List (Nat × List Char)) :=
  searchGo r s.data

/-- Match that must consume the whole input (used for the strptime formats,
which reject a partial match of the data string). -/
def refullmatch (r : RE) (s : String) : Option (List (Nat × List Char)) :=
  mmatch (fuelFor s.data.length) r s.data []
    (fun rest g => if rest.isEmpty then some g else Option.none)

/-- Text of a capture group from a successful match (groups in the source
patterns always participate when the pattern matches). -/
def grpStr (g : List (Nat × List Char)) (i : Nat) : String :=
  ((g.find? (fun p => p.1 == i)).map (fun p => String.mk p.2)).getD ""

/-! ### Pattern construction helpers (transcription combinators) -/

/-- Literal string. -/
def rstr (s : String) : RE := s.data.foldr (fun c acc => RE.cat (RE.lit c) acc) RE.eps

/-- Literal string under IGNORECASE. -/
def rstrCI (s : String) : RE := s.data.foldr (fun c acc => RE.cat (RE.litCI c) acc) RE.eps

def ropt (r : RE) : RE := .rep 0 (some 1) false r
def rstar (r : RE) : RE := .rep 0 Option.none false r
def rplus (r : RE) : RE := .rep 1 Option.none false r
def rplusLazy (r : RE) : RE := .rep 1 Option.none true r
def rexact (n : Nat) (r : RE) : RE := .rep n (some n) false r
def rbetween (lo hi : Nat) (r : RE) : RE := .rep lo (some hi) false r
def ratleast (n : Nat) (r : RE) : RE := .rep n Option.none false r

def ralts : List RE → RE
  | [] => RE.eps
  | [r] => r
  | r :: rs => RE.alt r (ralts rs)

def rseq : List RE → RE
  | [] => RE.eps
  | r :: rs => RE.cat r (rseq rs)

/-- \d -/
def dcls : RE := .cls false false [.digit]
/-- \s -/
def spcls : RE := .cls false false [.space]
/-- \w -/
def wcls : RE := .cls false false [.word]
/-- [A-Za-z] -/
def alphaCls : RE := .cls false false [.range 'A' 'Z', .range 'a' 'z']

/-! ## main_with_api.py — namespace MainApi -/

namespace MainApi

/-! ### clean_numeric_string (main_with_api.py lines 184-201)

def clean_numeric_string(value_str):
    if not value_str: return None
    cleaned = str(value_str).replace(',', '')
    if cleaned.endswith('.'): cleaned = cleaned[:-1]
    if cleaned.count('.') > 1:
        first_dot = cleaned.find('.')
        cleaned = cleaned[:first_dot+1] + cleaned[first_dot+1:].replace('.', '')
    return cleaned

The argument is always a string at the call sites, so str() is the identity;
only the empty string is falsy. -/
def clean_numeric_string (value_str : String) : Option String :=
  if value_str = "" then Option.none else
  let cs := value_str.data.filter (fun c => !(c == ','))
  let cs := if cs.getLast? = some '.' then cs.dropLast else cs
  let cs :=
    if (cs.filter (fun c => c == '.')).length > 1 then
      match cs.findIdx? (fun c => c == '.') with
      | some i => cs.take (i + 1) ++ (cs.drop (i + 1)).filter (fun c => !(c == '.'))
      | Option.none => cs
    else cs
  some ⟨cs⟩

/-! ### parse_date (main_with_api.py lines 117-180) -/

/-- Pattern 1: (\d{1,2})[-\s/]([A-Za-z]{3})[-\s/](\d{2,4}) -/
def datePat1 : RE :=
  rseq [.grp 1 (rbetween 1 2 dcls),
        .cls false false [.single '-', .space, .single '/'],
        .grp 2 (rexact 3 alphaCls),
        .cls false false [.single '-', .space, .single '/'],
        .grp 3 (rbetween 2 4 dcls)]

/-- Pattern 2: (\d{1,2})[\x2d\x2f](\d{1,2})[\x2d\x2f](\d{4}) (separator class written with hex escapes in this comment). -/
def datePat2 : RE :=
  rseq [.grp 1 (rbetween 1 2 dcls),
        .cls false false [.single '-', .single '/'],
        .grp 2 (rbetween 1 2 dcls),
        .cls false false [.single '-', .single '/'],
        .grp 3 (rexact 4 dcls)]

/-- Pattern 3: (\d{4})[\x2d\x2f](\d{1,2})[\x2d\x2f](\d{1,2}) (separator class written with hex escapes in this comment). -/
def datePat3 : RE :=
  rseq [.grp 1 (rexact 4 dcls),
        .cls false false [.single '-', .single '/'],
        .grp 2 (rbetween 1 2 dcls),
        .cls false false [.single '-', .single '/'],
        .grp 3 (rbetween 1 2 dcls)]

/-- Pattern 4: (\d{2})[\x2d\x2f](\d{1,2})[\x2d\x2f](\d{1,2}) (separator class written with hex escapes in this comment). -/
def datePat4 : RE :=
  rseq [.grp 1 (rexact 2 dcls),
        .cls false false [.single '-', .single '/'],
        .grp 2 (rbetween 1 2 dcls),
        .cls false false [.single '-', .single '/'],
        .grp 3 (rbetween 1 2 dcls)]

/-- The fixed month-name table; .get(key, default) yields "01" for an
unrecognized name (documented quirk of the source). -/
def monthMapGet (m : String) : String :=
  if m = "JAN" then "01" else if m = "FEB" then "02"
  else if m = "MAR" then "03" else if m = "APR" then "04"
  else if m = "MAY" then "05" else if m = "JUN" then "06"
  else if m = "JUL" then "07" else if m = "AUG" then "08"
  else if m = "SEP" then "09" else if m = "OCT" then "10"
  else if m = "NOV" then "11" else if m = "DEC" then "12"
  else "01"

/-! #### datetime.strptime fallback

The final branch of parse_date tries, in order, the strict formats
%d-%b-%y, %d/%m/%Y, %d-%m-%Y, %Y-%m-%d, %y-%m-%d.  Python strptime compiles
each directive into an alternation over the admissible digit strings (for
example %d becomes 3[01]|[12]\d|0[1-9]|[1-9]) matched against the whole data
string case-insensitively, then constructs the date, raising ValueError on a
calendar-invalid combination.  Python picks its first regex match and then
requires it to span the data string; for these separator-delimited formats
that coincides with searching for a whole-string match as refullmatch does. -/

/-- strptime %d: 3[01]|[12]\d|0[1-9]|[1-9] -/
def sptDay : RE :=
  ralts [rseq [.lit '3', .cls false false [.single '0', .single '1']],
         rseq [.cls false false [.single '1', .single '2'], dcls],
         rseq [.lit '0', .cls false false [.range '1' '9']],
         .cls false false [.range '1' '9']]

/-- strptime %m: 1[0-2]|0[1-9]|[1-9] -/
def sptMon : RE :=
  ralts [rseq [.lit '1', .cls false false [.range '0' '2']],
         rseq [.lit '0', .cls false false [.range '1' '9']],
         .cls false false [.range '1' '9']]

/-- strptime %y: two digits. -/
def sptYY : RE := rexact 2 dcls

/-- strptime %Y: four digits. -/
def sptYYYY : RE := rexact 4 dcls

/-- strptime %b: the locale month abbreviations, case-insensitive. -/
def sptMonAbbr : RE :=
  ralts [rstrCI "jan", rstrCI "feb", rstrCI "mar", rstrCI "apr",
         rstrCI "may", rstrCI "jun", rstrCI "jul", rstrCI "aug",
         rstrCI "sep", rstrCI "oct", rstrCI "nov", rstrCI "dec"]

/-- Month number of a lowercased 3-letter abbreviation (1-12). -/
def monAbbrNum (m : String) : Nat :=
  if m = "jan" then 1 else if m = "feb" then 2 else if m = "mar" then 3
  else if m = "apr" then 4 else if m = "may" then 5 else if m = "jun" then 6
  else if m = "jul" then 7 else if m = "aug" then 8 else if m = "sep" then 9
  else if m = "oct" then 10 else if m = "nov" then 11 else 12

/-- strptime %y pivot: 00-68 map to 2000-2068, 69-99 to 1969-1999. -/
def expandYY (y : Nat) : Nat := if y ≤ 68 then 2000 + y else 1900 + y

/-- Gregorian leap year. -/
def isLeap (y : Nat) : Bool := (y % 4 = 0 && y % 100 ≠ 0) || y % 400 = 0

/-- Days in a month (month 1-12). -/
def daysInMonth (y m : Nat) : Nat :=
  if m = 2 then (if isLeap y then 29 else 28)
  else if m = 4 || m = 6 || m = 9 || m = 11 then 30
  else 31

/-- datetime validity as strptime checks it (year 1-9999). -/
def validYMD (t : Nat × Nat × Nat) : Bool :=
  1 ≤ t.1 && t.1 ≤ 9999 && 1 ≤ t.2.1 && t.2.1 ≤ 12
  && 1 ≤ t.2.2 && t.2.2 ≤ daysInMonth t.1 t.2.1

/-- strptime "%d-%b-%y". -/
def strptimeDbY (s : String) : Option (Nat × Nat × Nat) :=
  match refullmatch (rseq [.grp 1 sptDay, .lit '-', .grp 2 sptMonAbbr,
                           .lit '-', .grp 3 sptYY]) s with
  | some g => some (expandYY (natOfDigits (grpStr g 3).data),
                    monAbbrNum (strLower (grpStr g 2)),
                    natOfDigits (grpStr g 1).data)
  | Option.none => Option.none

/-- strptime "%d/%m/%Y". -/
def strptimeDmYslash (s : String) : Option (Nat × Nat × Nat) :=
  match refullmatch (rseq [.grp 1 sptDay, .lit '/', .grp 2 sptMon,
                           .lit '/', .grp 3 sptYYYY]) s with
  | some g => some (natOfDigits (grpStr g 3).data,
                    natOfDigits (grpStr g 2).data,
                    natOfDigits (grpStr g 1).data)
  | Option.none => Option.none

/-- strptime "%d-%m-%Y". -/
def strptimeDmYdash (s : String) : Option (Nat × Nat × Nat) :=
  match refullmatch (rseq [.grp 1 sptDay, .lit '-', .grp 2 sptMon,
                           .lit '-', .grp 3 sptYYYY]) s with
  | some g => some (natOfDigits (grpStr g 3).data,
                    natOfDigits (grpStr g 2).data,
                    natOfDigits (grpStr g 1).data)
  | Option.none => Option.none

/-- strptime "%Y-%m-%d". -/
def strptimeYmd (s : String) : Option (Nat × Nat × Nat) :=
  match refullmatch (rseq [.grp 1 sptYYYY, .lit '-', .grp 2 sptMon,
                           .lit '-', .grp 3 sptDay]) s with
  | some g => some (natOfDigits (grpStr g 1).data,
                    natOfDigits (grpStr g 2).data,
                    natOfDigits (grpStr g 3).data)
  | Option.none => Option.none

/-- strptime "%y-%m-%d". -/
def strptimeYYmd (s : String) : Option (Nat × Nat × Nat) :=
  match refullmatch (rseq [.grp 1 sptYY, .lit '-', .grp 2 sptMon,
                           .lit '-', .grp 3 sptDay]) s with
  | some g => some (expandYY (natOfDigits (grpStr g 1).data),
                    natOfDigits (grpStr g 2).data,
                    natOfDigits (grpStr g 3).data)
  | Option.none => Option.none

/-- First format whose parse succeeds and is calendar-valid; an invalid
combination raises ValueError in Python, caught by the loop, which then
tries the next format. -/
def firstValidFmt : List (Option (Nat × Nat × Nat)) → Option (Nat × Nat × Nat)
  | [] => Option.none
  | Option.none :: rest => firstValidFmt rest
  | some t :: rest => if validYMD t then some t else firstValidFmt rest

/-- dt.strftime("%Y-%m-%d"). -/
def fmtYMD (t : Nat × Nat × Nat) : String :=
  padNum 4 t.1 ++ "-" ++ padNum 2 t.2.1 ++ "-" ++ padNum 2 t.2.2

/-- parse_date: normalize assorted date spellings to YYYY-MM-DD, or None.
Total by construction, so no exception can escape (the Python body wraps
everything in try/except returning None). -/
def parse_date (date_str : String) : Option String :=
  match research datePat1 date_str with
  | some g =>
    let day := grpStr g 1
    let month_str := grpStr g 2
    let year := grpStr g 3
    let month := monthMapGet (strUpper month_str)
    let year := if year.length = 2 then "20" ++ year else year
    let day := zfill2 day
    some (year ++ "-" ++ month ++ "-" ++ day)
  | Option.none =>
  match research datePat2 date_str with
  | some g =>
    let day := zfill2 (grpStr g 1)
    let month := zfill2 (grpStr g 2)
    let year := grpStr g 3
    some (year ++ "-" ++ month ++ "-" ++ day)
  | Option.none =>
  match research datePat3 date_str with
  | some g =>
    let year := grpStr g 1
    let month := zfill2 (grpStr g 2)
    let day := zfill2 (grpStr g 3)
    some (year ++ "-" ++ month ++ "-" ++ day)
  | Option.none =>
  match research datePat4 date_str with
  | some g =>
    let year := "20" ++ grpStr g 1
    let month := zfill2 (grpStr g 2)
    let day := zfill2 (grpStr g 3)
    some (year ++ "-" ++ month ++ "-" ++ day)
  | Option.none =>
  match firstValidFmt [strptimeDbY date_str, strptimeDmYslash date_str,
                       strptimeDmYdash date_str, strptimeYmd date_str,
                       strptimeYYmd date_str] with
  | some t => some (fmtYMD t)
  | Option.none => Option.none

end MainApi

namespace MainApi

/-! ### classify_message_type (main_with_api.py lines 204-236) -/

/-- Ordered keyword decision list over the lowercased message; first matching
rule wins. -/
def classify_message_type (message : String) : String :=
  let m := strLower message
  if strContains m "salary" || strContains m "credited" || strContains m "deposited" then
    "SALARY_CREDIT"
  else if (strContains m "loan" || strContains m "emi")
      && (strContains m "debited" || strContains m "deducted" || strContains m "due on") then
    "EMI_PAYMENT"
  else if strContains m "credit card" || strContains m "creditcard" || strContains m "card member" then
    "CREDIT_CARD_TRANSACTION"
  else if strContains m "sip"
      && (strContains m "processed" || strContains m "deducted"
          || strContains m "under folio" || strContains m "has been processed") then
    "SIP_INVESTMENT"
  else if strContains m "insurance" || strContains m "premium" || strContains m "policy" then
    "INSURANCE_PAYMENT"
  else if strContains m "credited" || strContains m "deposited" then
    "CREDIT_TRANSACTION"
  else if strContains m "debited" || strContains m "deducted" then
    "DEBIT_TRANSACTION"
  else
    "OTHER_FINANCIAL"

/-! ### sanitize_llm_data (main_with_api.py lines 44-70) -/

/-- The loop body of sanitize_llm_data for one key/value pair.  None values
are skipped (left untouched); the four identifier fields are always coerced
to str(value).strip(); strings that look numeric after trimming become int
or float; int/float (and bool, a Python int subclass) pass through; anything
else falls back to str(value).strip(). -/
def sanitizeItem (kv : String × PyVal) : String × PyVal :=
  let key := kv.1
  match kv.2 with
  | .none => (key, PyVal.none)
  | value =>
    if key == "account_number" || key == "card_number"
        || key == "folio_number" || key == "policy_number" then
      (key, .str (pyStrip (pyStr value)))
    else
      match value with
      | .str s =>
        let cleaned := pyStrip s
        if pyIsDigitStr (removeFirstDot cleaned) then
          if strContains cleaned "." then
            match parseFloat? cleaned with
            | some q => (key, .float q)
            | Option.none => (key, .str cleaned)
          else
            match parseInt? cleaned with
            | some n => (key, .int n)
            | Option.none => (key, .str cleaned)
        else (key, .str cleaned)
      | .int n => (key, .int n)
      | .float q => (key, .float q)
      | .bool b => (key, .bool b)
      | v => (key, .str (pyStrip (pyStr v)))

/-- sanitize_llm_data: rewrite every value of the dict in place. -/
def sanitize_llm_data (data : FieldMap) : FieldMap :=
  data.map sanitizeItem

end MainApi

/-! ## routes.py — namespace Routes -/

namespace Routes

/-- clean_numeric_string (routes.py lines 79-96); textually the same
algorithm as the MainApi version except that the argument is used without a
str() cast (it is always a string at the call sites). -/
def clean_numeric_string (value_str : String) : Option String :=
  if value_str = "" then Option.none else
  let cs := value_str.data.filter (fun c => !(c == ','))
  let cs := if cs.getLast? = some '.' then cs.dropLast else cs
  let cs :=
    if (cs.filter (fun c => c == '.')).length > 1 then
      match cs.findIdx? (fun c => c == '.') with
      | some i => cs.take (i + 1) ++ (cs.drop (i + 1)).filter (fun c => !(c == '.'))
      | Option.none => cs
    else cs
  some ⟨cs⟩

/-! ### classify_message_type (routes.py lines 99-130)

Unlike the MainApi classifier, the salary rule additionally requires a bank
keyword, there is no insurance rule, and the EMI rule has no "due on"
disjunct. -/
def classify_message_type (message : String) : String :=
  let m := strLower message
  if (strContains m "salary" || strContains m "deposited" || strContains m "credited")
      && (strContains m "hdfc" || strContains m "sbi"
          || strContains m "icici" || strContains m "axis") then
    "SALARY_CREDIT"
  else if (strContains m "loan" || strContains m "emi")
      && (strContains m "debited" || strContains m "deducted") then
    "EMI_PAYMENT"
  else if strContains m "credit card" || strContains m "creditcard" || strContains m "card member" then
    "CREDIT_CARD_TRANSACTION"
  else if strContains m "sip"
      && (strContains m "processed" || strContains m "deducted"
          || strContains m "under folio" || strContains m "has been processed") then
    "SIP_INVESTMENT"
  else if strContains m "credited" || strContains m "deposited" then
    "CREDIT_TRANSACTION"
  else if strContains m "debited" || strContains m "deducted" then
    "DEBIT_TRANSACTION"
  else
    "OTHER_FINANCIAL"

/-! ### sanitize_llm_data (routes.py lines 293-309)

def sanitize_llm_data(data):
    if not data or not isinstance(data, dict): return \x7b\x7d
    sanitized = \x7b\x7d
    for key, value in data.items():
        if isinstance(value, str) and key in ['amount', 'available_balance',
                                              'total_outstanding', 'nav_value']:
            try: sanitized[key] = float(clean_numeric_string(value))
            except (ValueError, TypeError): continue
        else: sanitized[key] = value
    return sanitized

Identifier fields receive no special treatment here; non-numeric-string
values pass through unchanged; a failed conversion drops the key. -/
def sanitize_llm_data (data : PyVal) : FieldMap :=
  match data with
  | .dict fields =>
    if fields.isEmpty then [] else
    fields.foldl (fun sanitized kv =>
      match kv.2 with
      | .str s =>
        if kv.1 == "amount" || kv.1 == "available_balance"
            || kv.1 == "total_outstanding" || kv.1 == "nav_value" then
          match clean_numeric_string s with
          | some c =>
            match pyFloatLit? c with
            | some q => fset sanitized kv.1 (.float q)
            | Option.none => sanitized
          | Option.none => sanitized
        else fset sanitized kv.1 (.str s)
      | v => fset sanitized kv.1 v) []
  | _ => []

end Routes

namespace MainApi

/-! ### extract_financial_data patterns (main_with_api.py lines 240-343)

Pattern transcriptions; the original literals are quoted in the comments
(with \x2d\x2f escapes where a dash-slash pair would end the comment). -/

/-- amount_pattern = (?:INR|Rs\.?|₹)\s*([\d,]+\.?\d*) -/
def amountPat : RE :=
  rseq [ralts [rstr "INR", rseq [rstr "Rs", ropt (.lit '.')], rstr "₹"],
        rstar spcls,
        .grp 1 (rseq [rplus (.cls false false [.digit, .single ',']),
                      ropt (.lit '.'), rstar dcls])]

/-- account_pattern = (?:A\x2fc(?:\s+no)?\.?|Ac(?:\s+no)?\.?|card ending|account)\s*[:\x2d]?\s*([A-Z0-9]+\d{4}), searched with re.IGNORECASE. -/
def accountPat : RE :=
  rseq [ralts [rseq [rstrCI "A/c", ropt (rseq [rplus spcls, rstrCI "no"]), ropt (.lit '.')],
               rseq [rstrCI "Ac", ropt (rseq [rplus spcls, rstrCI "no"]), ropt (.lit '.')],
               rstrCI "card ending",
               rstrCI "account"],
        rstar spcls,
        ropt (.cls false false [.single ':', .single '-']),
        rstar spcls,
        .grp 1 (rseq [rplus (.cls true false [.range 'A' 'Z', .range '0' '9']),
                      rexact 4 dcls])]

/-- date_pattern = (\d{2}[\x2d\x2f]\d{2}[\x2d\x2f]\d{2,4}|\d{2}[\x2d\s][A-Za-z]{3}[\x2d\s]\d{2,4}) -/
def genDatePat : RE :=
  .grp 1 (ralts
    [rseq [rexact 2 dcls, .cls false false [.single '-', .single '/'],
           rexact 2 dcls, .cls false false [.single '-', .single '/'],
           rbetween 2 4 dcls],
     rseq [rexact 2 dcls, .cls false false [.single '-', .space],
           rexact 3 alphaCls, .cls false false [.single '-', .space],
           rbetween 2 4 dcls]])

/-- balance_pattern = (?:Avl bal|available balance|net available balance)[^0-9]*(?:INR|Rs\.?|₹)\s*([\d,]+\.?\d*), searched with re.IGNORECASE. -/
def balancePat : RE :=
  rseq [ralts [rstrCI "Avl bal", rstrCI "available balance", rstrCI "net available balance"],
        rstar (.cls true true [.range '0' '9']),
        ralts [rstrCI "INR", rseq [rstrCI "Rs", ropt (.lit '.')], .litCI '₹'],
        rstar spcls,
        .grp 1 (rseq [rplus (.cls true false [.digit, .single ',']),
                      ropt (.lit '.'), rstar dcls])]

/-- bank pattern = (?:from|to|by)?\s*([A-Z][A-Za-z\s]+)\s+(?:Bank|BANK|bank) -/
def bankPat : RE :=
  rseq [ropt (ralts [rstr "from", rstr "to", rstr "by"]),
        rstar spcls,
        .grp 1 (rseq [.cls false false [.range 'A' 'Z'],
                      rplus (.cls false false [.range 'A' 'Z', .range 'a' 'z', .space])]),
        rplus spcls,
        ralts [rstr "Bank", rstr "BANK", rstr "bank"]]

/-- employer pattern = - ([A-Za-z\s]+) - -/
def employerPat : RE :=
  rseq [rstr "- ",
        .grp 1 (rplus (.cls false false [.range 'A' 'Z', .range 'a' 'z', .space])),
        rstr " -"]

/-- loan reference pattern = ([A-Z0-9]+\d{6,}) -/
def loanRefPat : RE :=
  .grp 1 (rseq [rplus (.cls false false [.range 'A' 'Z', .range '0' '9']),
                ratleast 6 dcls])

/-- loan type pattern = Loan\s+([A-Za-z]+), searched with re.IGNORECASE. -/
def loanTypePat : RE :=
  rseq [rstrCI "Loan", rplus spcls,
        .grp 1 (rplus (.cls true false [.range 'A' 'Z', .range 'a' 'z']))]

/-- merchant pattern = at\s+([A-Za-z\s]+)\s+on, searched with re.IGNORECASE. -/
def merchantPat : RE :=
  rseq [rstrCI "at", rplus spcls,
        .grp 1 (rplus (.cls true false [.range 'A' 'Z', .range 'a' 'z', .space])),
        rplus spcls, rstrCI "on"]

/-- authorization pattern = Authorization code[\x2d:]?\s*(\w+) -/
def authPat : RE :=
  rseq [rstr "Authorization code",
        ropt (.cls false false [.single '-', .single ':']),
        rstar spcls,
        .grp 1 (rplus wcls)]

/-- outstanding pattern = total outstanding is\s+(?:Rs\.?|INR|₹)\s*([\d,]+\.?\d*), searched with re.IGNORECASE. -/
def outstandingPat : RE :=
  rseq [rstrCI "total outstanding is", rplus spcls,
        ralts [rseq [rstrCI "Rs", ropt (.lit '.')], rstrCI "INR", .litCI '₹'],
        rstar spcls,
        .grp 1 (rseq [rplus (.cls true false [.digit, .single ',']),
                      ropt (.lit '.'), rstar dcls])]

/-- policy pattern = policy(?:\s+no\.?| number)?[:\x2d]?\s*([A-Z0-9]+), searched with re.IGNORECASE. -/
def policyPat : RE :=
  rseq [rstrCI "policy",
        ropt (ralts [rseq [rplus spcls, rstrCI "no", ropt (.lit '.')],
                     rstrCI " number"]),
        ropt (.cls false false [.single ':', .single '-']),
        rstar spcls,
        .grp 1 (rplus (.cls true false [.range 'A' 'Z', .range '0' '9']))]

/-! ### extract_sip_data patterns (main_with_api.py lines 347-411) -/

/-- SIP amount pattern = (?:Rs\.?|INR)\s*([\d,]+\.?\d*) -/
def sipAmountPat : RE :=
  rseq [ralts [rseq [rstr "Rs", ropt (.lit '.')], rstr "INR"],
        rstar spcls,
        .grp 1 (rseq [rplus (.cls false false [.digit, .single ',']),
                      ropt (.lit '.'), rstar dcls])]

/-- SIP of (\d{2}/\d{2}/\d{4}) -/
def sipDatePat1 : RE :=
  rseq [rstr "SIP of ",
        .grp 1 (rseq [rexact 2 dcls, .lit '/', rexact 2 dcls, .lit '/', rexact 4 dcls])]

/-- SIP of (\d{2}-\d{2}-\d{4}) -/
def sipDatePat2 : RE :=
  rseq [rstr "SIP of ",
        .grp 1 (rseq [rexact 2 dcls, .lit '-', rexact 2 dcls, .lit '-', rexact 4 dcls])]

/-- SIP of (\d{2}-[A-Za-z]{3}-\d{2,4}) -/
def sipDatePat3 : RE :=
  rseq [rstr "SIP of ",
        .grp 1 (rseq [rexact 2 dcls, .lit '-', rexact 3 alphaCls, .lit '-',
                      rbetween 2 4 dcls])]

/-- SIP general date fallback = (\d{2}[\x2d\x2f]\d{2}[\x2d\x2f]\d{4}|\d{2}[\x2d\s][A-Za-z]{3}[\x2d\s]\d{2,4}) -/
def sipGenDatePat : RE :=
  .grp 1 (ralts
    [rseq [rexact 2 dcls, .cls false false [.single '-', .single '/'],
           rexact 2 dcls, .cls false false [.single '-', .single '/'],
           rexact 4 dcls],
     rseq [rexact 2 dcls, .cls false false [.single '-', .space],
           rexact 3 alphaCls, .cls false false [.single '-', .space],
           rbetween 2 4 dcls]])

/-- folio pattern = [Ff]olio\s+([A-Z0-9]+) -/
def folioPat : RE :=
  rseq [.cls false false [.single 'F', .single 'f'], rstr "olio", rplus spcls,
        .grp 1 (rplus (.cls false false [.range 'A' 'Z', .range '0' '9']))]

/-- fund pattern = in\s+([A-Za-z\s\x2d]+?)(?:Regular|has been) -/
def fundPat : RE :=
  rseq [rstr "in", rplus spcls,
        .grp 1 (rplusLazy (.cls false false [.range 'A' 'Z', .range 'a' 'z', .space, .single '-'])),
        ralts [rstr "Regular", rstr "has been"]]

/-- NAV pattern = NAV of\s+([\d\.]+) -/
def navPat : RE :=
  rseq [rstr "NAV of", rplus spcls,
        .grp 1 (rplus (.cls false false [.digit, .single '.']))]

/-- Shared shape of the numeric-capture blocks: clean the capture, and if the
cleaned string is truthy and converts, set the field (a ValueError leaves
the dict unchanged). -/
def setCleanedFloat (d : FieldMap) (key capture : String) : FieldMap :=
  match clean_numeric_string capture with
  | some s =>
    if s ≠ "" then
      match parseFloat? s with
      | some q => fset d key (.float q)
      | Option.none => d
    else d
  | Option.none => d

/-- extract_sip_data (main_with_api.py lines 347-411). -/
def extract_sip_data (message : String) : FieldMap :=
  let data : FieldMap := []
  let data := match research sipAmountPat message with
    | some g => setCleanedFloat data "amount" (grpStr g 1)
    | Option.none => data
  let data :=
    match (match research sipDatePat1 message with
           | some g => MainApi.parse_date (grpStr g 1)
           | Option.none =>
           match research sipDatePat2 message with
           | some g => MainApi.parse_date (grpStr g 1)
           | Option.none =>
           match research sipDatePat3 message with
           | some g => MainApi.parse_date (grpStr g 1)
           | Option.none => Option.none) with
    | some pd => fset data "transaction_date" (.str pd)
    | Option.none => data
  let data :=
    if fhas data "transaction_date" then data
    else match research sipGenDatePat message with
      | some g =>
        match MainApi.parse_date (grpStr g 1) with
        | some pd => fset data "transaction_date" (.str pd)
        | Option.none => data
      | Option.none => data
  let data := match research folioPat message with
    | some g => fset data "folio_number" (.str (grpStr g 1))
    | Option.none => data
  let data := match research fundPat message with
    | some g => fset data "fund_name" (.str (pyStrip (grpStr g 1)))
    | Option.none => data
  let data := match research navPat message with
    | some g => setCleanedFloat data "nav_value" (grpStr g 1)
    | Option.none => data
  data

/-- extract_financial_data (main_with_api.py lines 240-343). -/
def extract_financial_data (message_type message : String) : FieldMap :=
  let data : FieldMap := []
  let data := match research amountPat message with
    | some g => setCleanedFloat data "amount" (grpStr g 1)
    | Option.none => data
  let data := match research accountPat message with
    | some g => fset data "account_number" (.str (grpStr g 1))
    | Option.none => data
  let data := match research genDatePat message with
    | some g =>
      match MainApi.parse_date (grpStr g 1) with
      | some pd => fset data "transaction_date" (.str pd)
      | Option.none => data
    | Option.none => data
  let data := match research balancePat message with
    | some g => setCleanedFloat data "available_balance" (grpStr g 1)
    | Option.none => data
  let data := match research bankPat message with
    | some g => fset data "bank_name" (.str (pyStrip (grpStr g 1) ++ " Bank"))
    | Option.none => data
  if message_type = "SALARY_CREDIT" then
    match research employerPat message with
    | some g => fset data "employer" (.str (pyStrip (grpStr g 1)))
    | Option.none => fset data "employer" (.str "General Transaction")
  else if message_type = "EMI_PAYMENT" then
    let data := match research loanRefPat message with
      | some g => fset data "loan_reference" (.str (grpStr g 1))
      | Option.none => data
    match research loanTypePat message with
    | some g => fset data "loan_type" (.str (grpStr g 1))
    | Option.none => fset data "loan_type" (.str "Personal Loan")
  else if message_type = "CREDIT_CARD_TRANSACTION" then
    let data := match research merchantPat message with
      | some g => fset data "merchant" (.str (pyStrip (grpStr g 1)))
      | Option.none => data
    let data := match research authPat message with
      | some g => fset data "authorization_code" (.str (grpStr g 1))
      | Option.none => data
    match research outstandingPat message with
    | some g => setCleanedFloat data "total_outstanding" (grpStr g 1)
    | Option.none => data
  else if message_type = "SIP_INVESTMENT" then
    dictUpdate data (extract_sip_data message)
  else if message_type = "INSURANCE_PAYMENT" then
    let data := match research policyPat message with
      | some g => fset data "policy_number" (.str (grpStr g 1))
      | Option.none => data
    let data :=
      match ["LIC", "HDFC Life", "ICICI Prudential", "SBI Life", "Tata AIA"].find?
          (fun company => strContains (strLower message) (strLower company)) with
      | some company => fset data "insurance_company" (.str company)
      | Option.none => data
    fset data "insurance_type" (.str "Life Insurance")
  else data

end MainApi

/-- The errors that can cross the core boundary: the empty-message
ValueError / HTTP 400, the "LLM returned no result" ValueError of
main_with_api.process_single_message, and the uncaught ValueError that the
routes SIP extractor raises from its tuple-unpack of a mixed-separator date
capture (routes.py lines 261-264), which nothing on the fallback path
catches. -/
inductive CoreErr where
  | emptyMessage
  | llmFailed
  | valueError

namespace Routes

/-! ### extract_financial_data patterns (routes.py lines 133-238) -/

/-- amount_pattern = (?:INR|Rs\.?|₹)\s*([\d,]+\.?\d*) (same literal as MainApi). -/
def amountPat : RE := MainApi.amountPat

/-- account_pattern = (?:A\x2fc|Ac\sNo\.|card ending|account)\s*([A-Z0-9]+\d{4}), searched with re.IGNORECASE. -/
def accountPat : RE :=
  rseq [ralts [rstrCI "A/c",
               rseq [rstrCI "Ac", spcls, rstrCI "No", .lit '.'],
               rstrCI "card ending",
               rstrCI "account"],
        rstar spcls,
        .grp 1 (rseq [rplus (.cls true false [.range 'A' 'Z', .range '0' '9']),
                      rexact 4 dcls])]

/-- date_pattern = (\d{2}[\x2d\x2f]\d{2}[\x2d\x2f]\d{2,4}) -/
def datePat : RE :=
  .grp 1 (rseq [rexact 2 dcls, .cls false false [.single '-', .single '/'],
                rexact 2 dcls, .cls false false [.single '-', .single '/'],
                rbetween 2 4 dcls])

/-- balance_pattern: same literal as MainApi. -/
def balancePat : RE := MainApi.balancePat

/-- merchant pattern: same literal as MainApi. -/
def merchantPat : RE := MainApi.merchantPat

/-- authorization pattern = Authorization code:- (\w+) -/
def authPat : RE :=
  rseq [rstr "Authorization code:- ", .grp 1 (rplus wcls)]

/-- outstanding pattern: same literal as MainApi. -/
def outstandingPat : RE := MainApi.outstandingPat

/-- loan reference / loan type / folio / fund / NAV / SIP amount: same
literals as MainApi. -/
def loanRefPat : RE := MainApi.loanRefPat
def loanTypePat : RE := MainApi.loanTypePat
def folioPat : RE := MainApi.folioPat
def fundPat : RE := MainApi.fundPat
def navPat : RE := MainApi.navPat
def sipAmountPat : RE := MainApi.sipAmountPat

/-- SIP date pattern = (\d{2}[\x2f\x2d]\d{2}[\x2f\x2d]\d{4}) -/
def sipDatePat : RE :=
  .grp 1 (rseq [rexact 2 dcls, .cls false false [.single '/', .single '-'],
                rexact 2 dcls, .cls false false [.single '/', .single '-'],
                rexact 4 dcls])

/-- Split a character list at every occurrence of a separator (Python
str.split(sep) for a single-character separator). -/
def splitChar (sep : Char) (cs : List Char) : List (List Char) :=
  match cs with
  | [] => [[]]
  | c :: t =>
    let rest := splitChar sep t
    if c == sep then [] :: rest
    else match rest with
      | [] => [[c]]
      | h :: t2 => (c :: h) :: t2

/-- Numeric-capture block shared by the routes extractors (identical shape to
the MainApi one but using the routes clean_numeric_string). -/
def setCleanedFloat (d : FieldMap) (key capture : String) : FieldMap :=
  match clean_numeric_string capture with
  | some s =>
    if s ≠ "" then
      match parseFloat? s with
      | some q => fset d key (.float q)
      | Option.none => d
    else d
  | Option.none => d

/-- The inline date normalization of routes extract_financial_data:
day, month, year = date_str.replace('\x2f', '-').split('-'); two-digit years
are prefixed with 20.  The regex shape guarantees exactly three parts. -/
def normalizeRoutesDate (date_str : String) : Option String :=
  let replaced := date_str.data.map (fun c => if c == '/' then '-' else c)
  match splitChar '-' replaced with
  | [day, month, year] =>
    let year := if year.length = 2 then '2' :: '0' :: year else year
    some (String.mk year ++ "-" ++ String.mk month ++ "-" ++ String.mk day)
  | _ => Option.none

/-- The folio, fund and NAV blocks of extract_sip_data (routes.py lines
267-289), the straight-line tail that runs after the date block. -/
def sipTailFields (message : String) (data : FieldMap) : FieldMap :=
  let data := match research folioPat message with
    | some g => fset data "folio_number" (.str (grpStr g 1))
    | Option.none => data
  let data := match research fundPat message with
    | some g => fset data "fund_name" (.str (pyStrip (grpStr g 1)))
    | Option.none => data
  let data := match research navPat message with
    | some g => setCleanedFloat data "nav_value" (grpStr g 1)
    | Option.none => data
  data

/-- extract_sip_data (routes.py lines 241-290).  The date block unpacks
`day, month, year = date_str.split(...)`; because the capture regex admits
mixed separators (for example "11/04-2025"), the split can yield two parts
and the unpack then raises an uncaught ValueError, which aborts the whole
extraction — modelled as the error case. -/
def extract_sip_data (message : String) : Except CoreErr FieldMap :=
  let data : FieldMap := []
  let data := match research sipAmountPat message with
    | some g => setCleanedFloat data "amount" (grpStr g 1)
    | Option.none => data
  match research sipDatePat message with
  | some g =>
    let ds := grpStr g 1
    let parts := if strContains ds "/" then splitChar '/' ds.data
                 else splitChar '-' ds.data
    match parts with
    | [day, month, year] =>
      .ok (sipTailFields message
        (fset data "transaction_date"
          (.str (String.mk year ++ "-" ++ String.mk month ++ "-" ++ String.mk day))))
    | _ => .error .valueError
  | Option.none => .ok (sipTailFields message data)

/-- The per-category bank-name scan: first listed bank whose lowercased name
occurs in the lowercased message. -/
def bankScan (banks : List String) (message : String) (data : FieldMap) : FieldMap :=
  match banks.find? (fun b => strContains (strLower message) (strLower b)) with
  | some b => fset data "bank_name" (.str b)
  | Option.none => data

/-- extract_financial_data (routes.py lines 133-238).  The SIP branch calls
extract_sip_data, whose date-unpack ValueError propagates. -/
def extract_financial_data (message_type message : String) : Except CoreErr FieldMap :=
  let data : FieldMap := []
  let data := match research amountPat message with
    | some g => setCleanedFloat data "amount" (grpStr g 1)
    | Option.none => data
  let data := match research accountPat message with
    | some g => fset data "account_number" (.str (grpStr g 1))
    | Option.none => data
  let data := match research datePat message with
    | some g =>
      match normalizeRoutesDate (grpStr g 1) with
      | some nd => fset data "transaction_date" (.str nd)
      | Option.none => data
    | Option.none => data
  let data := match research balancePat message with
    | some g => setCleanedFloat data "available_balance" (grpStr g 1)
    | Option.none => data
  if message_type = "SALARY_CREDIT" then
    let data := match research MainApi.employerPat message with
      | some g => fset data "employer" (.str (pyStrip (grpStr g 1)))
      | Option.none => data
    .ok (bankScan ["HDFC Bank", "SBI", "ICICI Bank", "Axis Bank"] message data)
  else if message_type = "EMI_PAYMENT" then
    let data := match research loanRefPat message with
      | some g => fset data "loan_reference" (.str (grpStr g 1))
      | Option.none => data
    let data := match research loanTypePat message with
      | some g => fset data "loan_type" (.str (grpStr g 1))
      | Option.none => fset data "loan_type" (.str "Personal Loan")
    .ok (bankScan ["HDFC Bank", "SBI", "ICICI Bank", "Axis Bank", "NNSB"] message data)
  else if message_type = "CREDIT_CARD_TRANSACTION" then
    let data := match research merchantPat message with
      | some g => fset data "merchant" (.str (pyStrip (grpStr g 1)))
      | Option.none => data
    let data := match research authPat message with
      | some g => fset data "authorization_code" (.str (grpStr g 1))
      | Option.none => data
    let data := match research outstandingPat message with
      | some g => setCleanedFloat data "total_outstanding" (grpStr g 1)
      | Option.none => data
    .ok (bankScan ["HDFC Bank", "SBI", "ICICI Bank", "Axis Bank"] message data)
  else if message_type = "SIP_INVESTMENT" then
    match extract_sip_data message with
    | .ok sip_data => .ok (dictUpdate data sip_data)
    | .error e => .error e
  else .ok data

end Routes

/-! ## Orchestration: the remote-analysis adapters and the two entry points

The outbound model invocation and the stdlib JSON decoding are external
collaborators; both analyze_with_llm embeddings therefore take the decoded
JSON value as an argument: Option.none stands for an invocation error or a
JSONDecodeError on the extracted block (the source catches both and returns
None), some j for a successfully decoded value j.  Database storage is an
external side effect and is not part of the returned value. -/

/-- The validated result of an analyze_with_llm call. -/
structure LlmResult where
  message_type : PyVal
  extracted_data : FieldMap
  important_points : PyVal

/-- The value returned by MainApi.process_single_message. -/
structure FinalResult where
  message_type : PyVal
  important_points : PyVal
  data : FieldMap

/-- The response of the routes analyze endpoint. -/
structure MessageResponse where
  message_type : PyVal
  important_points : PyVal
  data : FieldMap

/-- Python == between a dynamic value and a string literal. -/
def pvEqStr (v : PyVal) (s : String) : Bool :=
  match v with
  | .str t => t == s
  | _ => false

/-- Insert a comma after every three digits of a reversed digit list. -/
def group3 : List Char → List Char
  | a :: b :: c :: d :: rest => a :: b :: c :: ',' :: group3 (d :: rest)
  | l => l

/-- Grouped two-decimal float formatting, Python format spec ",.2f": round
half-even to cents from the exact rational and insert thousands separators.
(Double-rounding artifacts of binary floats are not modelled; no claim
evaluates this function on a value where they could differ.) -/
def formatComma2 (v : PyVal) : String :=
  let cents : Int :=
    match v with
    | .float q =>
      let n := q.num * 100
      let d : Int := (q.den : Int)
      let fl := Int.fdiv n d
      let rem := n - fl * d
      if 2 * rem > d then fl + 1
      else if 2 * rem < d then fl
      else if fl % 2 = 0 then fl else fl + 1
    | .int n => n * 100
    | _ => 0
  let sign := if cents < 0 then "-" else ""
  let a := cents.natAbs
  let whole := a / 100
  let frac := a % 100
  let wholeDigits := (toString whole).data.reverse
  sign ++ String.mk (group3 wholeDigits).reverse ++ "." ++ padNum 2 frac

namespace MainApi

/-- analyze_with_llm (main_with_api.py lines 673-734), as a function of the
decoded JSON outcome.  A decode failure returns None; a decoded value that
is not an object, or lacks message_type, extracted_data or important_points,
or whose extracted_data is not an object (sanitize_llm_data then raises),
raises inside the try block, is caught, and also yields None.  On success
extracted_data is sanitized. -/
def analyze_with_llm (decoded : Option PyVal) : Option LlmResult :=
  match decoded with
  | Option.none => Option.none
  | some (.dict fields) =>
    if fhas fields "message_type" && fhas fields "extracted_data"
        && fhas fields "important_points" then
      match fget fields "extracted_data" with
      | some (.dict ed) =>
        some ⟨(fget fields "message_type").getD .none,
              sanitize_llm_data ed,
              (fget fields "important_points").getD .none⟩
      | _ => Option.none
    else Option.none
  | some _ => Option.none

/-- process_single_message (main_with_api.py lines 624-657).  An empty or
blank message raises ValueError; a failed remote analysis raises ValueError
("LLM returned no result or failed to extract information") — there is no
local fallback on this path.  On success the hint date fills a missing or
falsy transaction_date.  (The database write is external and omitted.) -/
def process_single_message (date_str message : String) (decoded : Option PyVal) :
    Except CoreErr FinalResult :=
  if pyStrip message = "" then .error .emptyMessage
  else
    match analyze_with_llm decoded with
    | Option.none => .error .llmFailed
    | some r =>
      let data := r.extracted_data
      let needDate :=
        match fget data "transaction_date" with
        | Option.none => true
        | some v => !pyTruthy v
      let data :=
        if needDate then
          match (if date_str ≠ "" then parse_date date_str else Option.none) with
          | some pd => fset data "transaction_date" (.str pd)
          | Option.none => data
        else data
      .ok ⟨r.message_type, r.important_points, data⟩

end MainApi

namespace Routes

/-- analyze_with_llm (routes.py lines 381-463), as a function of the decoded
JSON outcome.  Same validation of the three required keys; the routes
sanitizer accepts any extracted_data shape (a non-dict becomes an empty
dict), so only a non-object top level or a missing key aborts to None. -/
def analyze_with_llm (decoded : Option PyVal) : Option LlmResult :=
  match decoded with
  | Option.none => Option.none
  | some (.dict fields) =>
    if fhas fields "message_type" && fhas fields "extracted_data"
        && fhas fields "important_points" then
      some ⟨(fget fields "message_type").getD .none,
            sanitize_llm_data ((fget fields "extracted_data").getD .none),
            (fget fields "important_points").getD .none⟩
    else Option.none
  | some _ => Option.none

/-- The rule-based else branch of analyze_message (routes.py lines 501-538):
classify, extract, assemble the highlight strings.  The block runs with no
exception handler around the extraction, so the date-unpack ValueError of
the SIP extractor propagates out of it. -/
def fallback_response (message : String) : Except CoreErr MessageResponse :=
  let message_type := classify_message_type message
  match extract_financial_data message_type message with
  | .error e => .error e
  | .ok extracted_data =>
  let pts : List String := []
  let pts :=
    if fhas extracted_data "amount" then
      pts ++ ["Transaction amount: ₹" ++ formatComma2 ((fget extracted_data "amount").getD .none)]
    else pts
  let pts :=
    if fhas extracted_data "transaction_date" then
      pts ++ ["Date: " ++ pyStr ((fget extracted_data "transaction_date").getD .none)]
    else pts
  let pts :=
    if fhas extracted_data "bank_name" then
      pts ++ ["Bank: " ++ pyStr ((fget extracted_data "bank_name").getD .none)]
    else pts
  let pts :=
    if fhas extracted_data "available_balance" then
      pts ++ ["Available balance: ₹" ++ formatComma2 ((fget extracted_data "available_balance").getD .none)]
    else pts
  let pts :=
    if message_type == "SALARY_CREDIT" && fhas extracted_data "employer" then
      pts ++ ["Salary from: " ++ pyStr ((fget extracted_data "employer").getD .none)]
    else if message_type == "CREDIT_CARD_TRANSACTION" && fhas extracted_data "merchant" then
      pts ++ ["Purchase at: " ++ pyStr ((fget extracted_data "merchant").getD .none)]
    else if message_type == "SIP_INVESTMENT" && fhas extracted_data "fund_name" then
      let pts := pts ++ ["Fund: " ++ pyStr ((fget extracted_data "fund_name").getD .none)]
      if fhas extracted_data "nav_value" then
        pts ++ ["NAV: " ++ pyStr ((fget extracted_data "nav_value").getD .none)]
      else pts
    else pts
  .ok ⟨.str message_type, .list (pts.map .str), extracted_data⟩

/-- analyze_message (routes.py lines 466-538).  An empty message raises
HTTP 400; otherwise the remote path is tried first, and on any remote
failure — or a remote result with an empty extracted_data — the rule-based
fallback runs; its result, or the uncaught ValueError of the SIP date
unpack, is what the caller sees (the only try/except in the branch wraps
the database write).  A successful SIP remote result with a missing or None
nav_value is patched from the specialized extractor, whose ValueError also
propagates on that path.  (The database write is external, its failure is
swallowed by the source, and it is omitted here.) -/
def analyze_message (message : String) (decoded : Option PyVal) :
    Except CoreErr MessageResponse :=
  if pyStrip message = "" then .error .emptyMessage
  else
    match analyze_with_llm decoded with
    | some r =>
      if !r.extracted_data.isEmpty then
        let extracted_data := r.extracted_data
        if pvEqStr r.message_type "SIP_INVESTMENT"
            && (match fget extracted_data "nav_value" with
                | Option.none => true
                | some .none => true
                | some _ => false) then
          match extract_sip_data message with
          | .error e => .error e
          | .ok sip_data =>
            let extracted_data :=
              match fget sip_data "nav_value" with
              | some nv => fset extracted_data "nav_value" nv
              | Option.none => extracted_data
            .ok ⟨r.message_type, r.important_points, extracted_data⟩
        else .ok ⟨r.message_type, r.important_points, extracted_data⟩
      else fallback_response message
    | Option.none => fallback_response message

end Routes

/-! ## Claims -/

set_option maxRecDepth 40000

/-- Claim C7: the date normalizer maps "05-MAY-24" to "2024-05-05",
"05/11/2024" to "2024-11-05", and "24-06-03" to "2024-06-03"; the
unparseable input "not-a-date" yields null.  No exception can escape:
parse_date is a total function of the embedding, mirroring the try/except
wrapper of the source that converts any error to None. -/
theorem claim_C7 :
    MainApi.parse_date "05-MAY-24" = some "2024-05-05"
    ∧ MainApi.parse_date "05/11/2024" = some "2024-11-05"
    ∧ MainApi.parse_date "24-06-03" = some "2024-06-03"
    ∧ MainApi.parse_date "not-a-date" = Option.none :=
  ⟨rfl, rfl, rfl, rfl⟩

/-- Helper for Claim C8: a filter that keeps everything is the identity. -/
theorem filter_keep_all {p : Char → Bool} :
    ∀ {l : List Char}, (∀ c ∈ l, p c = true) → l.filter p = l := by
  intro l h
  induction l with
  | nil => rfl
  | cons a t ih =>
    simp only [List.filter_cons]
    rw [h a (List.mem_cons_self a t), ih (fun c hc => h c (List.mem_cons_of_mem a hc))]
    rfl

/-- Claim C8: the numeric normalizer is the identity on every already-clean
numeric string (nonempty, comma-free, at most one dot, not ending in a dot),
and it maps "1,234.56" to "1234.56", "30.441." to "30.441" and "1.2.3" to
"1.23". -/
theorem claim_C8 (s : String) (hne : s ≠ "")
    (hcomma : ∀ c ∈ s.data, c ≠ ',')
    (hdots : (s.data.filter (fun c => c == '.')).length ≤ 1)
    (hlast : s.data.getLast? ≠ some '.') :
    MainApi.clean_numeric_string s = some s
    ∧ MainApi.clean_numeric_string "1,234.56" = some "1234.56"
    ∧ MainApi.clean_numeric_string "30.441." = some "30.441"
    ∧ MainApi.clean_numeric_string "1.2.3" = some "1.23" := by
  refine ⟨?_, rfl, rfl, rfl⟩
  unfold MainApi.clean_numeric_string
  rw [if_neg hne]
  have hfilter : s.data.filter (fun c => !(c == ',')) = s.data := by
    apply filter_keep_all
    intro c hc
    simpa using hcomma c hc
  simp only [hfilter, if_neg hlast, if_neg (by omega : ¬ (s.data.filter (fun c => c == '.')).length > 1)]

/-- Claim C8 witness at the concrete clean string "1234.56". -/
theorem claim_C8_witness :
    MainApi.clean_numeric_string "1234.56" = some "1234.56"
    ∧ MainApi.clean_numeric_string "1,234.56" = some "1234.56"
    ∧ MainApi.clean_numeric_string "30.441." = some "30.441"
    ∧ MainApi.clean_numeric_string "1.2.3" = some "1.23" :=
  claim_C8 "1234.56" (by decide) (by decide) (by decide) (by decide)

/-- Claim C9 counterexample: a whitespace-only input is not mapped to null —
the normalizer returns the whitespace string unchanged, because only the
empty string is falsy at the leading guard. -/
theorem claim_C9_counterexample :
    MainApi.clean_numeric_string " " = some " "
    ∧ some " " ≠ (Option.none : Option String) :=
  ⟨rfl, by simp⟩

/-- Claim C9 as amended: the numeric normalizer returns null exactly for the
empty input string; a whitespace-only nonempty input passes the guard and is
returned unchanged (both implementations; the call sites only ever pass
regex captures, which are never whitespace). -/
theorem claim_C9_amended :
    MainApi.clean_numeric_string "" = Option.none
    ∧ MainApi.clean_numeric_string " " = some " "
    ∧ Routes.clean_numeric_string "" = Option.none
    ∧ Routes.clean_numeric_string " " = some " " :=
  ⟨rfl, rfl, rfl, rfl⟩

/-- Helper for Claim C10: the sanitizer loop body never changes the key. -/
theorem sanitizeItem_fst (kv : String × PyVal) : (MainApi.sanitizeItem kv).1 = kv.1 := by
  obtain ⟨k, v⟩ := kv
  cases v <;> simp only [MainApi.sanitizeItem] <;> (repeat' split) <;> rfl

/-- Claim C10: the main_with_api sanitizer returns a dict with exactly the
keys of its input, in order — it rewrites values only — and a key mapped to
None keeps its None value (the loop skips None with continue). -/
theorem claim_C10 (data : FieldMap) :
    (MainApi.sanitize_llm_data data).map Prod.fst = data.map Prod.fst
    ∧ ∀ kv ∈ data, kv.2 = PyVal.none →
        (kv.1, PyVal.none) ∈ MainApi.sanitize_llm_data data := by
  constructor
  · unfold MainApi.sanitize_llm_data
    rw [List.map_map]
    exact List.map_congr_left (fun kv _ => sanitizeItem_fst kv)
  · intro kv hkv h2
    have heq : MainApi.sanitizeItem kv = (kv.1, PyVal.none) := by
      obtain ⟨k, v⟩ := kv
      cases h2
      rfl
    have hm := List.mem_map_of_mem MainApi.sanitizeItem hkv
    rw [heq] at hm
    exact hm

/-- Claim C10 witness at a concrete dict with a None value and a numeric
string value. -/
theorem claim_C10_witness :
    (MainApi.sanitize_llm_data [("transaction_date", PyVal.none), ("amount", PyVal.str " 5 ")]).map Prod.fst
      = ["transaction_date", "amount"]
    ∧ ("transaction_date", PyVal.none)
        ∈ MainApi.sanitize_llm_data [("transaction_date", PyVal.none), ("amount", PyVal.str " 5 ")] := by
  have h := claim_C10 [("transaction_date", PyVal.none), ("amount", PyVal.str " 5 ")]
  exact ⟨h.1, h.2 ("transaction_date", PyVal.none) (List.Mem.head _) rfl⟩

/-- Claim C4 counterexample: the routes.py sanitizer leaves identifier fields
untouched, so an account_number arriving as the integer 123456 stays an
integer and is never coerced to a trimmed string. -/
theorem claim_C4_counterexample :
    Routes.sanitize_llm_data (.dict [("account_number", PyVal.int 123456)])
      = [("account_number", PyVal.int 123456)]
    ∧ (PyVal.int 123456).isString = false :=
  ⟨rfl, rfl⟩

/-- Claim C4 as amended: the main_with_api sanitizer always coerces the four
identifier fields to str(value).strip() (so "123456" stays the string
"123456"); the routes sanitizer merely passes identifier fields through
unchanged — a string value therefore also stays the same string there, but a
non-string value is not coerced and no trimming happens. -/
theorem claim_C4_amended (data : FieldMap) (k : String) (v : PyVal)
    (hk : k = "account_number" ∨ k = "card_number" ∨ k = "folio_number" ∨ k = "policy_number")
    (hv : v ≠ PyVal.none) (hmem : (k, v) ∈ data) :
    (k, PyVal.str (pyStrip (pyStr v))) ∈ MainApi.sanitize_llm_data data
    ∧ MainApi.sanitize_llm_data [("account_number", PyVal.str "123456")]
        = [("account_number", PyVal.str "123456")]
    ∧ Routes.sanitize_llm_data (.dict [("account_number", PyVal.str "123456")])
        = [("account_number", PyVal.str "123456")] := by
  refine ⟨?_, rfl, rfl⟩
  have heq : MainApi.sanitizeItem (k, v) = (k, PyVal.str (pyStrip (pyStr v))) := by
    rcases hk with rfl | rfl | rfl | rfl <;>
      cases v <;> first | exact absurd rfl hv | rfl
  have hm := List.mem_map_of_mem MainApi.sanitizeItem hmem
  rw [heq] at hm
  exact hm

/-- Claim C4 witness at a concrete dict holding an untrimmed folio_number. -/
theorem claim_C4_witness :
    ("folio_number", PyVal.str "F123")
      ∈ MainApi.sanitize_llm_data [("folio_number", PyVal.str " F123 ")]
    ∧ MainApi.sanitize_llm_data [("account_number", PyVal.str "123456")]
        = [("account_number", PyVal.str "123456")]
    ∧ Routes.sanitize_llm_data (.dict [("account_number", PyVal.str "123456")])
        = [("account_number", PyVal.str "123456")] :=
  claim_C4_amended [("folio_number", PyVal.str " F123 ")] "folio_number"
    (PyVal.str " F123 ")
    (Or.inr (Or.inr (Or.inl rfl)))
    (fun h => PyVal.noConfusion h)
    (List.Mem.head _)

/-- Claim C3 counterexample: the routes.py classifier sends "salary debited"
(which contains "salary" and "debited" and no loan or emi keyword) to
DEBIT_TRANSACTION, because its salary rule additionally demands a bank
keyword. -/
theorem claim_C3_counterexample :
    strContains (strLower "salary debited") "salary" = true
    ∧ strContains (strLower "salary debited") "debited" = true
    ∧ strContains (strLower "salary debited") "loan" = false
    ∧ strContains (strLower "salary debited") "emi" = false
    ∧ Routes.classify_message_type "salary debited" = "DEBIT_TRANSACTION"
    ∧ Routes.classify_message_type "salary debited" ≠ "SALARY_CREDIT" := by
  refine ⟨by decide, by decide, by decide, by decide, by decide, by decide⟩

/-- Claim C3 as amended: for the main_with_api classifier the claim holds —
any message containing "salary" (in particular together with plain "debited"
and without loan or emi keywords) classifies as SALARY_CREDIT, never
DEBIT_TRANSACTION, because rule 1 precedes rule 7.  The routes.py classifier
does not satisfy this: its rule 1 additionally requires a bank keyword. -/
theorem claim_C3_amended (msg : String)
    (hsal : strContains (strLower msg) "salary" = true)
    (hdeb : strContains (strLower msg) "debited" = true)
    (hloan : strContains (strLower msg) "loan" = false)
    (hemi : strContains (strLower msg) "emi" = false) :
    MainApi.classify_message_type msg = "SALARY_CREDIT"
    ∧ MainApi.classify_message_type msg ≠ "DEBIT_TRANSACTION" := by
  have h1 : MainApi.classify_message_type msg = "SALARY_CREDIT" := by
    unfold MainApi.classify_message_type
    simp [hsal]
  exact ⟨h1, by rw [h1]; simp⟩

/-- Claim C3 witness at the concrete message "my salary was debited". -/
theorem claim_C3_witness :
    MainApi.classify_message_type "my salary was debited" = "SALARY_CREDIT"
    ∧ MainApi.classify_message_type "my salary was debited" ≠ "DEBIT_TRANSACTION" :=
  claim_C3_amended "my salary was debited" (by decide) (by decide) (by decide) (by decide)

/-- The fixed eight-category taxonomy of the specification. -/
def categories : List String :=
  ["SALARY_CREDIT", "EMI_PAYMENT", "CREDIT_CARD_TRANSACTION", "SIP_INVESTMENT",
   "CREDIT_TRANSACTION", "DEBIT_TRANSACTION", "INSURANCE_PAYMENT", "OTHER_FINANCIAL"]

/-- Stated from the specification: none of the classifier keywords occurs in
the lowercased message, so no classification rule of either implementation
matches.  ("due on" is subsumed: the EMI rule needs "loan" or "emi".) -/
def specNoRuleKeyword (msg : String) : Prop :=
  strContains (strLower msg) "salary" = false
  ∧ strContains (strLower msg) "credited" = false
  ∧ strContains (strLower msg) "deposited" = false
  ∧ strContains (strLower msg) "loan" = false
  ∧ strContains (strLower msg) "emi" = false
  ∧ strContains (strLower msg) "credit card" = false
  ∧ strContains (strLower msg) "creditcard" = false
  ∧ strContains (strLower msg) "card member" = false
  ∧ strContains (strLower msg) "sip" = false
  ∧ strContains (strLower msg) "insurance" = false
  ∧ strContains (strLower msg) "premium" = false
  ∧ strContains (strLower msg) "policy" = false
  ∧ strContains (strLower msg) "debited" = false
  ∧ strContains (strLower msg) "deducted" = false

/-- Claim C5: for every nonempty message both classifiers return exactly one
value, a member of the fixed eight-category set, and OTHER_FINANCIAL when no
rule matches. -/
theorem claim_C5 (msg : String) (hne : msg ≠ "") :
    MainApi.classify_message_type msg ∈ categories
    ∧ Routes.classify_message_type msg ∈ categories
    ∧ (specNoRuleKeyword msg →
        MainApi.classify_message_type msg = "OTHER_FINANCIAL"
        ∧ Routes.classify_message_type msg = "OTHER_FINANCIAL") := by
  refine ⟨?_, ?_, ?_⟩
  · unfold MainApi.classify_message_type
    dsimp only
    split_ifs <;> decide
  · unfold Routes.classify_message_type
    dsimp only
    split_ifs <;> decide
  · rintro ⟨h1, h2, h3, h4, h5, h6, h7, h8, h9, h10, h11, h12, h13, h14⟩
    constructor
    · unfold MainApi.classify_message_type
      simp [h1, h2, h3, h4, h5, h6, h7, h8, h9, h10, h11, h12, h13, h14]
    · unfold Routes.classify_message_type
      simp [h1, h2, h3, h4, h5, h6, h7, h8, h9, h13, h14]

/-- Claim C5 witness at the concrete keyword-free message "namaste". -/
theorem claim_C5_witness :
    MainApi.classify_message_type "namaste" ∈ categories
    ∧ Routes.classify_message_type "namaste" ∈ categories
    ∧ MainApi.classify_message_type "namaste" = "OTHER_FINANCIAL"
    ∧ Routes.classify_message_type "namaste" = "OTHER_FINANCIAL" := by
  have h := claim_C5 "namaste" (by decide)
  have h3 := h.2.2 (by refine ⟨?_, ?_, ?_, ?_, ?_, ?_, ?_, ?_, ?_, ?_, ?_, ?_, ?_, ?_⟩ <;> decide)
  exact ⟨h.1, h.2.1, h3.1, h3.2⟩

/-- The end-to-end credit message of the specification scenario. -/
def c2Message : String :=
  "Your A/c XX1234 credited with Rs.5,000.00 on 05-MAY-24. Avl bal Rs.12,300.50"

/-- Claim C2 counterexample: on the fallback path of main_with_api.py (whose
classify_message_type and extract_financial_data the claim cites), the
message classifies as SALARY_CREDIT, not CREDIT_TRANSACTION — rule 1 of the
classifier fires on plain "credited". -/
theorem claim_C2_counterexample :
    MainApi.classify_message_type c2Message = "SALARY_CREDIT"
    ∧ MainApi.classify_message_type c2Message ≠ "CREDIT_TRANSACTION" :=
  ⟨by decide, by decide⟩

/-- Claim C2 as amended: with remote analysis unavailable, the cited
main_with_api fallback pipeline yields category SALARY_CREDIT (not
CREDIT_TRANSACTION), with fields.amount == 5000.00, fields.transaction_date
== "2024-05-05" and fields.available_balance == 12300.50.  The routes.py
variant of the pipeline does classify the message as CREDIT_TRANSACTION, but
its date pattern has no month-name alternative, so there transaction_date
would be absent; no single implementation realizes the claim as stated. -/
theorem claim_C2_amended :
    MainApi.classify_message_type c2Message = "SALARY_CREDIT"
    ∧ fget (MainApi.extract_financial_data (MainApi.classify_message_type c2Message) c2Message)
        "amount" = some (.float (mkRat 5000 1))
    ∧ (mkRat 5000 1 : ℚ) = 5000.00
    ∧ fget (MainApi.extract_financial_data (MainApi.classify_message_type c2Message) c2Message)
        "transaction_date" = some (.str "2024-05-05")
    ∧ fget (MainApi.extract_financial_data (MainApi.classify_message_type c2Message) c2Message)
        "available_balance" = some (.float (mkRat 24601 2))
    ∧ (mkRat 24601 2 : ℚ) = 12300.50
    ∧ Routes.classify_message_type c2Message = "CREDIT_TRANSACTION"
    ∧ Except.map (fun d => fget d "transaction_date")
        (Routes.extract_financial_data (Routes.classify_message_type c2Message) c2Message)
      = .ok Option.none := by
  refine ⟨by decide, rfl, ?_, rfl, rfl, ?_, by decide, rfl⟩
  · norm_num [mkRat]
  · rw [Rat.mkRat_eq_div]; norm_num

/-- The end-to-end SIP message of the specification scenario. -/
def c6Message : String :=
  "Your SIP of 11/04/2025 for Rs.2499.88 under Folio XXXXXXX0016 in Mirae Asset Midcap Fund-Regular has been processed for NAV of 30.441."

/-- Claim C6: the SIP message, processed by the fallback pipeline, yields
category SIP_INVESTMENT, fields.folio_number == "XXXXXXX0016",
fields.nav_value == 30.441 (the trailing dot of the NAV capture is cleaned),
and fields.transaction_date == "2025-04-11". -/
theorem claim_C6 :
    MainApi.classify_message_type c6Message = "SIP_INVESTMENT"
    ∧ fget (MainApi.extract_financial_data (MainApi.classify_message_type c6Message) c6Message)
        "folio_number" = some (.str "XXXXXXX0016")
    ∧ fget (MainApi.extract_financial_data (MainApi.classify_message_type c6Message) c6Message)
        "nav_value" = some (.float (mkRat 30441 1000))
    ∧ (mkRat 30441 1000 : ℚ) = 30.441
    ∧ fget (MainApi.extract_financial_data (MainApi.classify_message_type c6Message) c6Message)
        "transaction_date" = some (.str "2025-04-11") := by
  refine ⟨by decide, rfl, rfl, ?_, rfl⟩
  rw [Rat.mkRat_eq_div]; norm_num

/-- Claim C1 counterexample: remote-path failure does raise past the core
boundary.  In main_with_api.py, process_single_message raises ValueError
("LLM returned no result...") instead of falling back, both for a malformed
JSON response (decoded outcome None) and for a response missing
important_points.  And even the routes.py fallback is not exception-free: a
SIP-classified message whose date capture mixes separators makes the
fallback's tuple unpack raise ValueError out of analyze_message. -/
theorem claim_C1_counterexample :
    MainApi.process_single_message "2024-01-01" "Your account was debited" Option.none
      = .error .llmFailed
    ∧ MainApi.process_single_message "2024-01-01" "Your account was debited"
        (some (.dict [("message_type", .str "DEBIT_TRANSACTION"), ("extracted_data", .dict [])]))
      = .error .llmFailed
    ∧ Routes.analyze_message "SIP of 11/04-2025 processed" Option.none
      = .error .valueError :=
  ⟨rfl, rfl, rfl⟩

/-- Helper for Claim C1: the only exception the routes SIP extractor can
raise is the date-unpack ValueError. -/
theorem routes_extract_sip_error (message : String) (e : CoreErr)
    (h : Routes.extract_sip_data message = .error e) : e = CoreErr.valueError := by
  unfold Routes.extract_sip_data at h
  dsimp only at h
  repeat' split at h
  all_goals first
  | (injection h with h; exact h.symm)
  | exact Except.noConfusion h

/-- Helper for Claim C1: the only exception the routes extractor can raise
is the one propagated from the SIP extractor. -/
theorem routes_extract_error (message_type message : String) (e : CoreErr)
    (h : Routes.extract_financial_data message_type message = .error e) :
    e = CoreErr.valueError := by
  unfold Routes.extract_financial_data at h
  dsimp only at h
  repeat' split at h
  all_goals try exact Except.noConfusion h
  all_goals
    rename_i heq
    injection h with h
    subst h
    exact routes_extract_sip_error message _ heq

/-- Helper for Claim C1: the rule-based fallback of routes.py fails only
with the date-unpack ValueError, never with a remote-path error. -/
theorem routes_fallback_error (message : String) (e : CoreErr)
    (h : Routes.fallback_response message = .error e) : e = CoreErr.valueError := by
  unfold Routes.fallback_response at h
  dsimp only at h
  split at h
  · rename_i hext
    injection h with h
    subst h
    exact routes_extract_error _ _ _ hext
  · exact Except.noConfusion h

/-- Claim C1 as amended: main_with_api.py's process_single_message never
falls back — every remote failure surfaces as a ValueError to the caller.
routes.py's analyze_message does run the classify-then-extract fallback on
every remote failure, and what the caller sees is exactly that fallback's
outcome; the fallback itself is not exception-free, but the only exception
it can raise is the ValueError of the SIP date unpack on a mixed-separator
date capture — no remote-path error ever reaches the caller through it. -/
theorem claim_C1_amended (message date_str : String) (decoded : Option PyVal)
    (hne : pyStrip message ≠ "") :
    (Routes.analyze_with_llm decoded = Option.none →
        Routes.analyze_message message decoded = Routes.fallback_response message)
    ∧ (∀ e, Routes.fallback_response message = .error e → e = CoreErr.valueError)
    ∧ (MainApi.analyze_with_llm decoded = Option.none →
        MainApi.process_single_message date_str message decoded = .error .llmFailed) := by
  refine ⟨?_, ?_, ?_⟩
  · intro h
    unfold Routes.analyze_message
    rw [if_neg hne, h]
  · exact fun e he => routes_fallback_error message e he
  · intro h
    unfold MainApi.process_single_message
    rw [if_neg hne, h]

/-- Claim C1 witness at a concrete message and a failing remote outcome. -/
theorem claim_C1_witness :
    (Routes.analyze_with_llm Option.none = Option.none →
        Routes.analyze_message "hello" Option.none = Routes.fallback_response "hello")
    ∧ (∀ e, Routes.fallback_response "hello" = .error e → e = CoreErr.valueError)
    ∧ (MainApi.analyze_with_llm Option.none = Option.none →
        MainApi.process_single_message "2024-01-01" "hello" Option.none = .error .llmFailed) :=
  claim_C1_amended "hello" "2024-01-01" Option.none (by decide)
